import Mathlib

/-!
Shallow embedding of the BlueyeROV autonomous docking core
(USBL frame decoding and averaging, coordinate conversion,
mission building, mission execution loop, mission run logging),
together with theorems settling the specification claims.
-/

namespace BlueyeDock

/-! ### USBL frame decoding (src/src/utils.py, USBLReader.read_data) -/

/-- Python bytes.find: index of the first occurrence of `t` in the list,
or -1 when absent. -/
def bfind : List Nat → Nat → Int
  | [], _ => -1
  | b :: rest, t =>
    if b = t then 0
    else if bfind rest t = -1 then -1 else bfind rest t + 1

/-- One decoded USBL sample: east/north offsets in meters (exact rationals
standing for the Python floats) and heading in whole degrees. -/
structure USBLSample where
  x : ℚ
  y : ℚ
  heading : Nat
deriving DecidableEq, Repr

/-- struct format h: two bytes, little endian, signed 16-bit. -/
def toInt16 (lo hi : Nat) : Int :=
  let u := lo + 256 * hi
  if u < 32768 then (u : Int) else (u : Int) - 65536

/-- struct.unpack of the 5-byte payload as little-endian h h B, then division of the two
int16 fields by 10 (decimeters to meters). -/
def decodePayload (p : List Nat) : USBLSample :=
  { x := (toInt16 (p.getD 0 0) (p.getD 1 0) : ℚ) / 10,
    y := (toInt16 (p.getD 2 0) (p.getD 3 0) : ℚ) / 10,
    heading := p.getD 4 0 }

/-- Per-buffer frame location and decoding, translated from
USBLReader.read_data: find the first 0x45 byte, find the next 0x45 after it
(Python find returns -1 when absent), take the payload to start right after
that second marker (degenerating to first marker + 1 when the second find
fails), and decode 5 payload bytes provided strictly more than 5 bytes
follow the payload start. -/
def decode_frame (data : List Nat) : Option USBLSample :=
  let hex_byte_start := bfind data 69
  if hex_byte_start = -1 then none
  else
    let hex_byte_start_real := bfind (data.drop (hex_byte_start.toNat + 1)) 69 + hex_byte_start + 2
    if hex_byte_start_real ≠ -1 ∧ hex_byte_start_real + 5 < (data.length : Int) then
      some (decodePayload ((data.drop hex_byte_start_real.toNat).take 5))
    else none

/-- The acceptance shape the specification claims for C2: the buffer consists of
two marker bytes 0x45 separated by exactly one byte, followed immediately by
the 5-byte payload. (Spec-side definition, for comparison with
`decode_frame`.) -/
def spec_frame (data : List Nat) : Prop :=
  ∃ g p0 p1 p2 p3 p4, data = [69, g, 69, p0, p1, p2, p3, p4]

/-- Sample accumulation loop of USBLReader.read_data: each received buffer is
scanned for one frame; decoding stops once `num_samples` samples are
collected or the stream of buffers ends (the timeout). -/
def collect_samples (num_samples : Nat) : List (List Nat) → List USBLSample
  | [] => []
  | buf :: rest =>
    if num_samples = 0 then []
    else
      match decode_frame buf with
      | some s => s :: collect_samples (num_samples - 1) rest
      | none => collect_samples num_samples rest

/-- Averaged USBL reading (class USBLData): the heading average is a float
in the source, hence a rational here. -/
structure USBLData where
  x : ℚ
  y : ℚ
  heading : ℚ
deriving DecidableEq, Repr

/-- Tail of USBLReader.read_data: if no valid sample was obtained the call
fails (returns None); otherwise the componentwise arithmetic mean of the
collected samples is returned. -/
def read_data (num_samples : Nat) (bufs : List (List Nat)) : Option USBLData :=
  let samples := collect_samples num_samples bufs
  if samples.isEmpty then none
  else
    some
      { x := (samples.map (fun s => s.x)).sum / samples.length,
        y := (samples.map (fun s => s.y)).sum / samples.length,
        heading := (samples.map (fun s => (s.heading : ℚ))).sum / samples.length }

/-! ### Coordinate conversion (src/src/utils.py, CoordinateConverter) -/

/-- math.atan2 on exact reals (C convention, with atan2 0 0 = 0 as Python
returns for two positive zeros). -/
noncomputable def atan2 (y x : ℝ) : ℝ :=
  if 0 < x then Real.arctan (y / x)
  else if x < 0 ∧ 0 ≤ y then Real.arctan (y / x) + Real.pi
  else if x < 0 ∧ y < 0 then Real.arctan (y / x) - Real.pi
  else if x = 0 ∧ 0 < y then Real.pi / 2
  else if x = 0 ∧ y < 0 then -(Real.pi / 2)
  else 0

/-- math.radians. -/
noncomputable def radians (d : ℝ) : ℝ := d * Real.pi / 180

/-- math.degrees. -/
noncomputable def degrees (r : ℝ) : ℝ := r * 180 / Real.pi

/-- CoordinateConverter.relative_to_absolute, translated line by line:
displacement to distance and bearing (atan2, normalised to [0, 360)), then
the direct geodesic on a sphere of radius 6371000 m. No special case for
x = y = 0. -/
noncomputable def relative_to_absolute (docking_lat docking_lon x y : ℝ) : ℝ × ℝ :=
  let EARTH_RADIUS : ℝ := 6371000
  let distance := Real.sqrt (x ^ 2 + y ^ 2)
  let bearing_rad := atan2 x y
  let bearing_deg0 := degrees bearing_rad
  let bearing_deg := if bearing_deg0 < 0 then bearing_deg0 + 360 else bearing_deg0
  let lat1_rad := radians docking_lat
  let lon1_rad := radians docking_lon
  let angular_distance := distance / EARTH_RADIUS
  let lat2_rad := Real.arcsin
    (Real.sin lat1_rad * Real.cos angular_distance +
      Real.cos lat1_rad * Real.sin angular_distance * Real.cos (radians bearing_deg))
  let lon2_rad := lon1_rad + atan2
    (Real.sin (radians bearing_deg) * Real.sin angular_distance * Real.cos lat1_rad)
    (Real.cos angular_distance - Real.sin lat1_rad * Real.sin lat2_rad)
  (degrees lat2_rad, degrees lon2_rad)

/-! ### Mission building (src/src/navigation.py) -/

/-- Navigation parameters consumed from the configuration object
(src/src/config.py, class Config). -/
structure Config where
  APPROACH_SPEED : ℚ
  DESCENT_SPEED : ℚ
  ACCEPTANCE_RADIUS : ℚ
  APPROACH_DEPTH_OFFSET : ℚ
deriving DecidableEq, Repr

inductive ControlModeVertical
  | auto_depth
  | manual
deriving DecidableEq, Repr

inductive ControlModeHorizontal
  | auto_heading
  | manual
deriving DecidableEq, Repr

inductive DepthZeroReference
  | surface
deriving DecidableEq, Repr

structure ControlModeCommand where
  control_mode_vertical : ControlModeVertical
  control_mode_horizontal : ControlModeHorizontal
deriving DecidableEq, Repr

structure DepthSetPoint where
  depth : ℚ
  speed_to_depth : ℚ
  depth_zero_reference : DepthZeroReference
deriving DecidableEq, Repr

structure LatLongPosition where
  latitude : ℚ
  longitude : ℚ
deriving DecidableEq, Repr

structure Waypoint where
  id : Nat
  name : String
  global_position : LatLongPosition
  circle_of_acceptance : ℚ
  speed_to_target : ℚ
  depth_set_point : DepthSetPoint
deriving DecidableEq, Repr

/-- The command variant carried by a bp.Instruction in this code base. -/
inductive InstructionCommand
  | control_mode_command (c : ControlModeCommand)
  | depth_set_point_command (d : DepthSetPoint)
  | waypoint_command (w : Waypoint)
deriving DecidableEq, Repr

structure Instruction where
  id : Nat
  command : InstructionCommand
  auto_continue : Bool
deriving DecidableEq, Repr

structure Mission where
  id : Nat
  name : String
  instructions : List Instruction
  default_surge_speed : ℚ
  default_heave_speed : ℚ
  default_circle_of_acceptance : ℚ
deriving DecidableEq, Repr

/-- ThreeStageNavigation.create_mission, translated statement by statement.
The drone position is received but not used beyond extraction, exactly as in
the source. -/
def threeStage_create_mission (drone_lat drone_lon target_lat target_lon target_depth : ℚ)
    (config : Config) : Mission :=
  let approach_depth := max 5 (target_depth - config.APPROACH_DEPTH_OFFSET)
  let control_mode : Instruction :=
    { id := 1,
      command := .control_mode_command
        { control_mode_vertical := .auto_depth, control_mode_horizontal := .manual },
      auto_continue := true }
  let initial_depth_set_point : DepthSetPoint :=
    { depth := min approach_depth 5,
      speed_to_depth := config.DESCENT_SPEED,
      depth_zero_reference := .surface }
  let goto_initial_depth : Instruction :=
    { id := 2,
      command := .depth_set_point_command initial_depth_set_point,
      auto_continue := true }
  let above_target_wp : Waypoint :=
    { id := 3,
      name := "Above Target",
      global_position := { latitude := target_lat, longitude := target_lon },
      circle_of_acceptance := config.ACCEPTANCE_RADIUS,
      speed_to_target := config.APPROACH_SPEED,
      depth_set_point := initial_depth_set_point }
  let goto_above_target : Instruction :=
    { id := 3, command := .waypoint_command above_target_wp, auto_continue := true }
  let final_depth_set_point : DepthSetPoint :=
    { depth := target_depth,
      speed_to_depth := config.DESCENT_SPEED,
      depth_zero_reference := .surface }
  let goto_final_depth : Instruction :=
    { id := 4,
      command := .depth_set_point_command final_depth_set_point,
      auto_continue := true }
  let target_wp : Waypoint :=
    { id := 5,
      name := "Target",
      global_position := { latitude := target_lat, longitude := target_lon },
      circle_of_acceptance := config.ACCEPTANCE_RADIUS,
      speed_to_target := config.APPROACH_SPEED,
      depth_set_point := final_depth_set_point }
  let goto_target : Instruction :=
    { id := 5, command := .waypoint_command target_wp, auto_continue := true }
  { id := 1,
    name := "Three-Stage Approach",
    instructions :=
      [control_mode, goto_initial_depth, goto_above_target, goto_final_depth, goto_target],
    default_surge_speed := config.APPROACH_SPEED,
    default_heave_speed := config.DESCENT_SPEED,
    default_circle_of_acceptance := config.ACCEPTANCE_RADIUS }

/-- DirectNavigation.create_mission, translated statement by statement. -/
def direct_create_mission (drone_lat drone_lon target_lat target_lon target_depth : ℚ)
    (config : Config) : Mission :=
  let depth_set_point : DepthSetPoint :=
    { depth := target_depth,
      speed_to_depth := config.DESCENT_SPEED,
      depth_zero_reference := .surface }
  let control_mode : Instruction :=
    { id := 1,
      command := .control_mode_command
        { control_mode_vertical := .auto_depth, control_mode_horizontal := .manual },
      auto_continue := true }
  let goto_depth : Instruction :=
    { id := 2, command := .depth_set_point_command depth_set_point, auto_continue := true }
  let target_wp : Waypoint :=
    { id := 3,
      name := "Target",
      global_position := { latitude := target_lat, longitude := target_lon },
      circle_of_acceptance := config.ACCEPTANCE_RADIUS,
      speed_to_target := config.APPROACH_SPEED,
      depth_set_point := depth_set_point }
  let goto_target : Instruction :=
    { id := 3, command := .waypoint_command target_wp, auto_continue := true }
  { id := 1,
    name := "Direct Approach",
    instructions := [control_mode, goto_depth, goto_target],
    default_surge_speed := config.APPROACH_SPEED,
    default_heave_speed := config.DESCENT_SPEED,
    default_circle_of_acceptance := config.ACCEPTANCE_RADIUS }

/-! ### Mission execution (src/drone.py, DroneManager.run_mission) -/

/-- The bp.MissionState values the monitor loop distinguishes. -/
inductive MissionState
  | ready
  | running
  | paused
  | completed
  | aborted
  | failedToLoadMission
  | failedToStartMission
  | inactive
deriving DecidableEq, Repr

/-- One iteration of collaborator responses: the get_status result
and the get_telemetry result (None when telemetry could not be fetched).
Telemetry content is opaque to the loop, modelled as a number. -/
structure PollResult where
  state : MissionState
  telemetry : Option Nat
deriving DecidableEq, Repr

/-- Observable actions of run_mission: vehicle commands and invocations of
the telemetry callback with the (status, telemetry) pair fetched on that
poll. -/
inductive Ev
  | clear
  | send
  | runCmd
  | stop
  | tick (state : MissionState) (telemetry : Nat)
deriving DecidableEq, Repr

/-- The states on which the monitor loop returns. -/
def terminalState (s : MissionState) : Bool :=
  s = .completed || s = .aborted || s = .failedToLoadMission || s = .failedToStartMission

/-- The `while True` monitor loop of run_mission over a script of iterations:
each iteration carries the elapsed time observed at its top and the poll
results the collaborator returns. Per iteration: elapsed > max_duration
stops the mission and returns False; otherwise status and telemetry are
fetched, the callback is invoked if one was given and telemetry is present,
and the four terminal states return. An exhausted script (the loop would
keep polling) yields no result. -/
def monitor (cb : Bool) (max_duration : ℚ) : List (ℚ × PollResult) → Option Bool × List Ev
  | [] => (none, [])
  | (elapsed, p) :: rest =>
    if max_duration < elapsed then (some false, [.stop])
    else
      let tickEvs : List Ev :=
        match p.telemetry with
        | some t => if cb then [.tick p.state t] else []
        | none => []
      if p.state = .completed then (some true, tickEvs)
      else if p.state = .aborted then (some false, tickEvs)
      else if p.state = .failedToLoadMission ∨ p.state = .failedToStartMission then
        (some false, tickEvs)
      else
        let r := monitor cb max_duration rest
        (r.1, tickEvs ++ r.2)

/-- DroneManager.run_mission, with the responses of the collaborator supplied as
data: refuse when not connected; clear, send, then poll the status once and
fail without running when it is not READY; otherwise issue run and enter the
monitor loop. -/
def run_mission (connected : Bool) (cb : Bool) (load_state : MissionState)
    (max_duration : ℚ) (script : List (ℚ × PollResult)) : Option Bool × List Ev :=
  if !connected then (some false, [])
  else if load_state ≠ .ready then (some false, [.clear, .send])
  else
    let r := monitor cb max_duration script
    (r.1, [.clear, .send, .runCmd] ++ r.2)

/-- Projection of an event to a callback invocation. -/
def tickOf : Ev → Option (MissionState × Nat)
  | .tick s t => some (s, t)
  | _ => none

/-- The (status, telemetry) pairs a script offers, in poll order, keeping
only polls whose telemetry fetch returned data. -/
def pollTicks (script : List (ℚ × PollResult)) : List (MissionState × Nat) :=
  script.filterMap (fun q => q.2.telemetry.map (fun t => (q.2.state, t)))

/-! ### Mission run logging (src/src/mission.py, MissionManager) -/

/-- One entry of MissionManager.mission_data (timestamps and nested record
fields elided; telemetry content opaque). -/
inductive LogEvent
  | mission_start (mission_name : String)
  | telemetry (status : MissionState) (telem : Nat)
  | mission_end (success : Bool) (reason : String)
deriving DecidableEq, Repr

/-- The mutable state of a MissionManager: the accumulated log and the
start marker (None until start_mission_logging ran). -/
structure MissionManagerState where
  mission_data : List LogEvent
  mission_start_time : Option Nat
deriving DecidableEq, Repr

/-- MissionManager.__init__: empty log, no active mission. -/
def initState : MissionManagerState := { mission_data := [], mission_start_time := none }

/-- MissionManager.start_mission_logging: reset the log and append the
mission_start entry. -/
def start_mission_logging (t : Nat) (mission_name : String) :
    MissionManagerState :=
  { mission_data := [LogEvent.mission_start mission_name],
    mission_start_time := some t }

/-- MissionManager.log_telemetry: warn-and-return when no mission is active,
otherwise append a telemetry record. -/
def log_telemetry (st : MissionManagerState) (status : MissionState) (telem : Nat) :
    MissionManagerState :=
  if st.mission_start_time.isNone then st
  else { st with mission_data := st.mission_data ++ [LogEvent.telemetry status telem] }

/-- MissionManager.end_mission_logging: None when no mission is active,
otherwise append the mission_end entry and persist the full ordered list. -/
def end_mission_logging (st : MissionManagerState) (success : Bool) (reason : String) :
    MissionManagerState × Option (List LogEvent) :=
  if st.mission_start_time.isNone then (st, none)
  else
    let st2 := { st with mission_data := st.mission_data ++ [LogEvent.mission_end success reason] }
    (st2, some st2.mission_data)

/-! ### Helper lemmas -/

theorem bfind_of_not_mem {t : Nat} {l : List Nat} (h : t ∉ l) : bfind l t = -1 := by
  induction l with
  | nil => rfl
  | cons b rest ih =>
    simp only [List.mem_cons, not_or] at h
    simp only [bfind]
    rw [if_neg (fun hb => h.1 hb.symm), ih h.2]
    simp

theorem bfind_append_cons {t : Nat} {a : List Nat} (l : List Nat) (h : t ∉ a) :
    bfind (a ++ t :: l) t = a.length := by
  induction a with
  | nil => simp [bfind]
  | cons b a' ih =>
    simp only [List.mem_cons, not_or] at h
    simp only [List.cons_append, bfind, List.append_eq]
    rw [if_neg (fun hb => h.1 hb.symm), ih h.2]
    have : ((a'.length : Int)) ≠ -1 := by omega
    rw [if_neg this]
    simp

theorem drop_append_cons {α : Type} (a : List α) (x : α) (l : List α) :
    (a ++ x :: l).drop (a.length + 1) = l := by
  induction a with
  | nil => rfl
  | cons b a' ih => simp only [List.cons_append, List.length_cons, List.drop_succ_cons]; exact ih

theorem drop_append_cons2 {α : Type} (a : List α) (x : α) (b : List α) (y : α) (c : List α) :
    (a ++ x :: (b ++ y :: c)).drop (b.length + a.length + 2) = c := by
  have h1 : b.length + a.length + 2 = (a.length + 1) + (b.length + 1) := by omega
  rw [h1, ← List.drop_drop, drop_append_cons, drop_append_cons]

theorem decode_frame_no_marker {data : List Nat} (h : 69 ∉ data) :
    decode_frame data = none := by
  simp only [decode_frame, bfind_of_not_mem h]
  simp

theorem decode_frame_one_marker (a tail : List Nat) (ha : 69 ∉ a) (htail : 69 ∉ tail) :
    decode_frame (a ++ 69 :: tail) =
      if 6 ≤ tail.length then some (decodePayload (tail.take 5)) else none := by
  have hs : bfind (a ++ 69 :: tail) 69 = (a.length : Int) := bfind_append_cons _ ha
  have hdrop1 : (a ++ 69 :: tail).drop (a.length + 1) = tail := drop_append_cons a 69 tail
  have htn : ((a.length : Int)).toNat = a.length := by omega
  have hlen : (a ++ 69 :: tail).length = a.length + tail.length + 1 := by
    simp [List.length_append]
    omega
  simp only [decode_frame, hs]
  rw [if_neg (by omega : ¬(a.length : Int) = -1), htn, hdrop1, bfind_of_not_mem htail]
  by_cases hc : 6 ≤ tail.length
  · rw [if_pos]
    · have htn2 : ((-1 : Int) + a.length + 2).toNat = a.length + 1 := by omega
      rw [htn2, hdrop1, if_pos hc]
    · constructor
      · omega
      · rw [hlen]
        push_cast
        omega
  · rw [if_neg, if_neg hc]
    rintro ⟨-, hlt⟩
    rw [hlen] at hlt
    push_cast at hlt
    omega

theorem decode_frame_two_markers (a b c : List Nat) (ha : 69 ∉ a) (hb : 69 ∉ b) :
    decode_frame (a ++ 69 :: (b ++ 69 :: c)) =
      if 6 ≤ c.length then some (decodePayload (c.take 5)) else none := by
  have hs : bfind (a ++ 69 :: (b ++ 69 :: c)) 69 = (a.length : Int) := bfind_append_cons _ ha
  have hdrop1 : (a ++ 69 :: (b ++ 69 :: c)).drop (a.length + 1) = b ++ 69 :: c :=
    drop_append_cons a 69 _
  have hinner : bfind (b ++ 69 :: c) 69 = (b.length : Int) := bfind_append_cons _ hb
  have htn : ((a.length : Int)).toNat = a.length := by omega
  have hlen : (a ++ 69 :: (b ++ 69 :: c)).length = a.length + b.length + c.length + 2 := by
    simp [List.length_append]
    omega
  simp only [decode_frame, hs]
  rw [if_neg (by omega : ¬(a.length : Int) = -1), htn, hdrop1, hinner]
  by_cases hc : 6 ≤ c.length
  · rw [if_pos]
    · have htn2 : ((b.length : Int) + a.length + 2).toNat = b.length + a.length + 2 := by omega
      rw [htn2, drop_append_cons2, if_pos hc]
    · constructor
      · omega
      · rw [hlen]
        push_cast
        omega
  · rw [if_neg, if_neg hc]
    rintro ⟨-, hlt⟩
    rw [hlen] at hlt
    push_cast at hlt
    omega

/-! ### Claim theorems -/

/-- C2 (amended): the framing USBLReader.read_data actually implements. A
buffer with no 0x45 byte yields no sample. A buffer whose only 0x45 is its
first marker decodes the 5 bytes right after that marker as the payload,
provided at least 6 bytes follow the marker; the two-marker shape decodes
the 5 bytes right after the second 0x45 — wherever it occurs, not one byte
after the first — provided at least 6 bytes follow it. In both accepting
shapes the payload is two little-endian signed 16-bit integers divided by 10
(decimeters to meters) and one unsigned byte heading; a buffer ending
exactly at the end of the payload is rejected (strict > in the length
check). -/
theorem C2_frame_acceptance :
    (∀ data : List Nat, 69 ∉ data → decode_frame data = none) ∧
    (∀ a tail : List Nat, 69 ∉ a → 69 ∉ tail →
      decode_frame (a ++ 69 :: tail) =
        if 6 ≤ tail.length then some (decodePayload (tail.take 5)) else none) ∧
    (∀ a b c : List Nat, 69 ∉ a → 69 ∉ b →
      decode_frame (a ++ 69 :: (b ++ 69 :: c)) =
        if 6 ≤ c.length then some (decodePayload (c.take 5)) else none) :=
  ⟨fun _ h => decode_frame_no_marker h, decode_frame_one_marker, decode_frame_two_markers⟩

/-- C2 witness: the characterization applied at concrete buffers — a
two-marker buffer with a gap of one byte between the markers and a spare
byte after the payload is accepted with east 1.0 m, north 0 m, heading 90,
and a markerless buffer is rejected. -/
theorem C2_frame_acceptance_witness :
    decode_frame ([1] ++ 69 :: ([0] ++ 69 :: [10, 0, 0, 0, 90, 7])) =
      (if 6 ≤ ([10, 0, 0, 0, 90, 7] : List Nat).length then
        some (decodePayload (([10, 0, 0, 0, 90, 7] : List Nat).take 5)) else none) ∧
    decode_frame [1, 2, 3] = none :=
  ⟨C2_frame_acceptance.2.2 [1] [0] [10, 0, 0, 0, 90, 7] (by decide) (by decide),
   C2_frame_acceptance.1 [1, 2, 3] (by decide)⟩

/-- C2 counterexample: the byte buffer 45 00 45 0A 00 00 00 5A matches the
claimed framing exactly (two 0x45 markers one byte apart followed
immediately by a 5-byte payload) yet yields no sample, because the code
demands strictly more than 5 bytes after the payload start. -/
theorem C2_counterexample :
    spec_frame [69, 0, 69, 10, 0, 0, 0, 90] ∧
      decode_frame [69, 0, 69, 10, 0, 0, 0, 90] = none :=
  ⟨⟨0, 10, 0, 0, 0, 90, rfl⟩, by decide⟩

/-- C6: for any origin, target and parameters, the three-stage mission has
exactly 5 instructions with ids [1,2,3,4,5] and the direct mission exactly 3
instructions with ids [1,2,3]; in both, ids are strictly increasing (hence
unique). -/
theorem C6_instruction_ids (drone_lat drone_lon target_lat target_lon target_depth : ℚ)
    (config : Config) :
    ((threeStage_create_mission drone_lat drone_lon target_lat target_lon target_depth
        config).instructions.length = 5) ∧
    ((threeStage_create_mission drone_lat drone_lon target_lat target_lon target_depth
        config).instructions.map (fun i => i.id) = [1, 2, 3, 4, 5]) ∧
    List.Chain' (· < ·)
      ((threeStage_create_mission drone_lat drone_lon target_lat target_lon target_depth
        config).instructions.map (fun i => i.id)) ∧
    ((direct_create_mission drone_lat drone_lon target_lat target_lon target_depth
        config).instructions.length = 3) ∧
    ((direct_create_mission drone_lat drone_lon target_lat target_lon target_depth
        config).instructions.map (fun i => i.id) = [1, 2, 3]) ∧
    List.Chain' (· < ·)
      ((direct_create_mission drone_lat drone_lon target_lat target_lon target_depth
        config).instructions.map (fun i => i.id)) := by
  have h5 : (threeStage_create_mission drone_lat drone_lon target_lat target_lon target_depth
      config).instructions.map (fun i => i.id) = [1, 2, 3, 4, 5] := rfl
  have h3 : (direct_create_mission drone_lat drone_lon target_lat target_lon target_depth
      config).instructions.map (fun i => i.id) = [1, 2, 3] := rfl
  refine ⟨rfl, h5, ?_, rfl, h3, ?_⟩
  · rw [h5]
    simp [List.chain'_cons, List.chain'_singleton]
  · rw [h3]
    simp [List.chain'_cons, List.chain'_singleton]

/-- C10: the depth commanded by the second instruction of the three-stage mission
is exactly 5.0 for every target depth and offset, since
min(max(5, d - off), 5) = 5 always; the waypoint of the third instruction carries
that same depth setpoint, so the approach depth never depends on the target
depth or the offset. -/
theorem C10_approach_depth_constant
    (drone_lat drone_lon target_lat target_lon target_depth : ℚ) (config : Config) :
    ((threeStage_create_mission drone_lat drone_lon target_lat target_lon target_depth
        config).instructions[1]? = some
      { id := 2,
        command := .depth_set_point_command
          { depth := 5, speed_to_depth := config.DESCENT_SPEED,
            depth_zero_reference := .surface },
        auto_continue := true }) ∧
    ((threeStage_create_mission drone_lat drone_lon target_lat target_lon target_depth
        config).instructions[2]? = some
      { id := 3,
        command := .waypoint_command
          { id := 3, name := "Above Target",
            global_position := { latitude := target_lat, longitude := target_lon },
            circle_of_acceptance := config.ACCEPTANCE_RADIUS,
            speed_to_target := config.APPROACH_SPEED,
            depth_set_point :=
              { depth := 5, speed_to_depth := config.DESCENT_SPEED,
                depth_zero_reference := .surface } },
        auto_continue := true }) := by
  have hmin : min (max 5 (target_depth - config.APPROACH_DEPTH_OFFSET)) 5 = 5 :=
    min_eq_right (le_max_left _ _)
  constructor
  · simp only [threeStage_create_mission]
    rw [hmin]
    rfl
  · simp only [threeStage_create_mission]
    rw [hmin]
    rfl

theorem count_stop_tickEvs (cb : Bool) (s : MissionState) (t : Option Nat) :
    (match t with
      | some u => if cb then [Ev.tick s u] else []
      | none => ([] : List Ev)).count Ev.stop = 0 := by
  cases t with
  | none => rfl
  | some u => cases cb <;> simp [List.count_cons]

theorem tickOf_tickEvs (s : MissionState) (t : Option Nat) :
    (match t with
      | some u => if true then [Ev.tick s u] else []
      | none => ([] : List Ev)).filterMap tickOf =
      (t.map (fun u => (s, u))).toList := by
  cases t <;> simp [tickOf]

theorem monitor_timeout (cb : Bool) (max_duration : ℚ) (pre : List (ℚ × PollResult))
    (el : ℚ) (p : PollResult) (rest : List (ℚ × PollResult))
    (hpre : ∀ q ∈ pre, q.1 ≤ max_duration ∧ terminalState q.2.state = false)
    (hel : max_duration < el) :
    (monitor cb max_duration (pre ++ (el, p) :: rest)).1 = some false ∧
    (monitor cb max_duration (pre ++ (el, p) :: rest)).2.count Ev.stop = 1 := by
  induction pre with
  | nil =>
    simp [monitor, if_pos hel]
  | cons q pre' ih =>
    obtain ⟨el', p'⟩ := q
    obtain ⟨hle, hterm⟩ := hpre _ (List.mem_cons_self _ _)
    have hih := ih (fun q hq => hpre q (List.mem_cons_of_mem _ hq))
    simp only [terminalState, Bool.or_eq_false_iff, decide_eq_false_iff_not] at hterm
    obtain ⟨⟨⟨h1, h2⟩, h3⟩, h4⟩ := hterm
    simp only [List.cons_append, monitor, if_neg (not_lt.mpr hle), if_neg h1, if_neg h2,
      if_neg (by simp [h3, h4] : ¬(p'.state = .failedToLoadMission ∨
        p'.state = .failedToStartMission)), List.append_eq]
    refine ⟨hih.1, ?_⟩
    rw [List.count_append, count_stop_tickEvs, hih.2]

/-- C4: when the single status poll after sendMission reports a state other
than READY, run_mission returns failure having issued only clear and send —
the run command is never sent to the vehicle. -/
theorem C4_failed_load_never_runs (cb : Bool) (load_state : MissionState)
    (max_duration : ℚ) (script : List (ℚ × PollResult)) (h : load_state ≠ .ready) :
    run_mission true cb load_state max_duration script = (some false, [.clear, .send]) ∧
    Ev.runCmd ∉ (run_mission true cb load_state max_duration script).2 := by
  have hr : run_mission true cb load_state max_duration script =
      (some false, [.clear, .send]) := by
    simp only [run_mission, Bool.not_true, Bool.false_eq_true, if_false, ne_eq, h,
      not_false_eq_true, if_true]
  refine ⟨hr, ?_⟩
  rw [hr]
  decide

/-- C4 witness: a vehicle that stays in RUNNING after load makes run_mission
fail with only clear and send issued. -/
theorem C4_failed_load_never_runs_witness :
    run_mission true true .running 10 [] = (some false, [.clear, .send]) ∧
    Ev.runCmd ∉ (run_mission true true .running 10 []).2 :=
  C4_failed_load_never_runs true .running 10 [] (by decide)

/-- C5: when the elapsed time observed at the top of a poll iteration
exceeds max_duration — all earlier iterations having been within budget and
non-terminal — run_mission returns failure and the stop command appears
exactly once in the whole command trace. -/
theorem C5_timeout_stops_once (cb : Bool) (max_duration : ℚ)
    (pre : List (ℚ × PollResult)) (el : ℚ) (p : PollResult)
    (rest : List (ℚ × PollResult))
    (hpre : ∀ q ∈ pre, q.1 ≤ max_duration ∧ terminalState q.2.state = false)
    (hel : max_duration < el) :
    (run_mission true cb .ready max_duration (pre ++ (el, p) :: rest)).1 = some false ∧
    (run_mission true cb .ready max_duration (pre ++ (el, p) :: rest)).2.count Ev.stop = 1 := by
  have hm := monitor_timeout cb max_duration pre el p rest hpre hel
  simp only [run_mission, Bool.not_true, Bool.false_eq_true, if_false, ne_eq,
    not_true_eq_false, reduceIte]
  refine ⟨hm.1, ?_⟩
  rw [List.count_append, hm.2]
  rfl

/-- C5 witness: with one in-budget non-terminal poll followed by an
iteration at elapsed 20 s against a 10 s budget, run_mission fails and
stops exactly once. -/
theorem C5_timeout_stops_once_witness :
    (run_mission true true .ready 10
      ([(0, ⟨.running, some 1⟩)] ++ (20, (⟨.running, none⟩ : PollResult)) :: [])).1 =
        some false ∧
    (run_mission true true .ready 10
      ([(0, ⟨.running, some 1⟩)] ++ (20, (⟨.running, none⟩ : PollResult)) :: [])).2.count
        Ev.stop = 1 :=
  C5_timeout_stops_once true 10 [(0, ⟨.running, some 1⟩)] 20 ⟨.running, none⟩ []
    (by decide) (by decide)

/-- C3 (amended): with a callback provided, the sequence of onTick
invocations performed by the monitor loop of run_mission is exactly the in-order
sequence of (status, telemetry) pairs fetched over a prefix of the polls,
restricted to polls whose telemetry fetch returned data — callbacks happen
in poll order, with the pair fetched on that very poll, and none after the
loop returns; iterations whose telemetry fetch returns None invoke no
callback. -/
theorem C3_ticks_are_poll_prefix (max_duration : ℚ) (script : List (ℚ × PollResult)) :
    ∃ k, k ≤ script.length ∧
      (monitor true max_duration script).2.filterMap tickOf = pollTicks (script.take k) := by
  induction script with
  | nil => exact ⟨0, by simp, by simp [monitor, pollTicks]⟩
  | cons q rest ih =>
    obtain ⟨el, p⟩ := q
    by_cases hto : max_duration < el
    · refine ⟨0, by simp, ?_⟩
      simp [monitor, if_pos hto, tickOf, pollTicks]
    · simp only [monitor, if_neg hto]
      by_cases h1 : p.state = .completed
      · rw [if_pos h1]
        exact ⟨1, by simp, by cases h : p.telemetry <;> simp [tickOf, pollTicks, h]⟩
      · rw [if_neg h1]
        by_cases h2 : p.state = .aborted
        · rw [if_pos h2]
          exact ⟨1, by simp, by cases h : p.telemetry <;> simp [tickOf, pollTicks, h]⟩
        · rw [if_neg h2]
          by_cases h3 : p.state = .failedToLoadMission ∨ p.state = .failedToStartMission
          · rw [if_pos h3]
            exact ⟨1, by simp, by cases h : p.telemetry <;> simp [tickOf, pollTicks, h]⟩
          · rw [if_neg h3]
            obtain ⟨k, hk, heq⟩ := ih
            refine ⟨k + 1, by simpa using hk, ?_⟩
            cases h : p.telemetry <;>
              simp [tickOf, pollTicks, h, List.filterMap_append, heq, List.take_succ_cons]

/-- C3 counterexample: a single-iteration run in which the status poll
returns COMPLETED but the telemetry fetch returns None performs the
iteration (and returns success) without ever invoking the callback — the
claimed per-iteration invocation fails. -/
theorem C3_counterexample :
    monitor true 100 [(0, ⟨.completed, none⟩)] = (some true, []) := by
  simp [monitor]

/-- C7: over every acquisition that decoded at least one sample, the fix
returned by read_data is the componentwise arithmetic mean of the decoded
samples (stated multiplicatively: mean times count equals sum); and the
concrete three-sample acquisition (1,0,0),(3,0,0),(2,0,0) — delivered as
three framed buffers — averages to x=2.0, y=0.0, heading=0. -/
theorem C7_fix_is_mean :
    (∀ (n : Nat) (bufs : List (List Nat)), collect_samples n bufs ≠ [] →
      ∃ d, read_data n bufs = some d ∧
        d.x * (collect_samples n bufs).length =
          ((collect_samples n bufs).map (fun s => s.x)).sum ∧
        d.y * (collect_samples n bufs).length =
          ((collect_samples n bufs).map (fun s => s.y)).sum ∧
        d.heading * (collect_samples n bufs).length =
          ((collect_samples n bufs).map (fun s => (s.heading : ℚ))).sum) ∧
    read_data 3 [[69, 0, 69, 10, 0, 0, 0, 0, 0], [69, 0, 69, 30, 0, 0, 0, 0, 0],
        [69, 0, 69, 20, 0, 0, 0, 0, 0]] =
      some { x := 2, y := 0, heading := 0 } := by
  constructor
  · intro n bufs h
    have hlen0 : (collect_samples n bufs).length ≠ 0 := by
      simpa [List.length_eq_zero] using h
    have hlen : ((collect_samples n bufs).length : ℚ) ≠ 0 := Nat.cast_ne_zero.mpr hlen0
    refine ⟨USBLData.mk
        (((collect_samples n bufs).map (fun s => s.x)).sum / (collect_samples n bufs).length)
        (((collect_samples n bufs).map (fun s => s.y)).sum / (collect_samples n bufs).length)
        (((collect_samples n bufs).map (fun s => (s.heading : ℚ))).sum /
          (collect_samples n bufs).length),
      ?_, ?_, ?_, ?_⟩
    · simp only [read_data]
      rw [if_neg (by simp [List.isEmpty_iff, h])]
    · exact div_mul_cancel₀ _ hlen
    · exact div_mul_cancel₀ _ hlen
    · exact div_mul_cancel₀ _ hlen
  · norm_num [read_data, collect_samples, decode_frame, decodePayload, toInt16, bfind,
      (show Int.toNat 3 = 3 from rfl)]

/-- C8: an acquisition that decodes zero valid samples yields no fix
(read_data returns None), and a fix is only ever produced from at least one
decoded sample. -/
theorem C8_no_fix_from_zero_samples :
    (∀ (n : Nat) (bufs : List (List Nat)), collect_samples n bufs = [] →
      read_data n bufs = none) ∧
    (∀ (n : Nat) (bufs : List (List Nat)) (d : USBLData), read_data n bufs = some d →
      1 ≤ (collect_samples n bufs).length) := by
  constructor
  · intro n bufs h
    simp [read_data, h]
  · intro n bufs d h
    by_contra hlt
    have hnil : collect_samples n bufs = [] := by
      have := Nat.lt_one_iff.mp (Nat.lt_of_not_le hlt)
      exact List.length_eq_zero.mp this
    rw [read_data] at h
    simp [hnil] at h

/-- C8 witness: a markerless buffer stream decodes no sample and read_data
returns None; the three-sample stream of C7 produces a fix from at least one
sample. -/
theorem C8_no_fix_from_zero_samples_witness :
    read_data 1 [[1, 2, 3]] = none ∧
    1 ≤ (collect_samples 3 [[69, 0, 69, 10, 0, 0, 0, 0, 0], [69, 0, 69, 30, 0, 0, 0, 0, 0],
        [69, 0, 69, 20, 0, 0, 0, 0, 0]]).length :=
  ⟨C8_no_fix_from_zero_samples.1 1 [[1, 2, 3]] (by decide),
   C8_no_fix_from_zero_samples.2 3 _ { x := 2, y := 0, heading := 0 }
     (by norm_num [read_data, collect_samples, decode_frame, decodePayload, toInt16, bfind,
        (show Int.toNat 3 = 3 from rfl)])⟩

theorem foldl_log_telemetry (ticks : List (MissionState × Nat)) :
    ∀ st : MissionManagerState, st.mission_start_time.isSome →
      ticks.foldl (fun st q => log_telemetry st q.1 q.2) st =
        { mission_data := st.mission_data ++ ticks.map (fun q => LogEvent.telemetry q.1 q.2),
          mission_start_time := st.mission_start_time } := by
  induction ticks with
  | nil => intro st _; simp
  | cons q ticks' ih =>
    intro st hst
    have hnot : ¬st.mission_start_time.isNone := by
      cases h : st.mission_start_time
      · rw [h] at hst; simp at hst
      · simp [h]
    rw [List.foldl_cons]
    have hhead : log_telemetry st q.1 q.2 =
        { mission_data := st.mission_data ++ [LogEvent.telemetry q.1 q.2],
          mission_start_time := st.mission_start_time } := by
      simp [log_telemetry, hnot]
    rw [hhead, ih _ (by simpa using hst)]
    simp

/-- C9: a run made of one start call, k tick calls and one end call
persists an ordered document of exactly k+2 entries — the mission_start
entry first, the k telemetry entries in call order, the mission_end entry
last — and a tick issued with no run started leaves the manager state
unchanged (nothing is appended). -/
theorem C9_run_log_shape (t : Nat) (mission_name : String)
    (ticks : List (MissionState × Nat)) (success : Bool) (reason : String) :
    ((end_mission_logging
        (ticks.foldl (fun st q => log_telemetry st q.1 q.2)
          (start_mission_logging t mission_name)) success reason).2 =
      some (LogEvent.mission_start mission_name ::
        (ticks.map (fun q => LogEvent.telemetry q.1 q.2) ++
          [LogEvent.mission_end success reason]))) ∧
    (∀ doc, (end_mission_logging
        (ticks.foldl (fun st q => log_telemetry st q.1 q.2)
          (start_mission_logging t mission_name)) success reason).2 = some doc →
      doc.length = ticks.length + 2) ∧
    (∀ (s : MissionState) (tm : Nat), log_telemetry initState s tm = initState) := by
  have hfold := foldl_log_telemetry ticks (start_mission_logging t mission_name)
    (by simp [start_mission_logging])
  have hmain : (end_mission_logging
      (ticks.foldl (fun st q => log_telemetry st q.1 q.2)
        (start_mission_logging t mission_name)) success reason).2 =
      some (LogEvent.mission_start mission_name ::
        (ticks.map (fun q => LogEvent.telemetry q.1 q.2) ++
          [LogEvent.mission_end success reason])) := by
    rw [hfold]
    simp [end_mission_logging, start_mission_logging]
  refine ⟨hmain, ?_, ?_⟩
  · intro doc hdoc
    rw [hmain] at hdoc
    have := Option.some.inj hdoc
    rw [← this]
    simp
  · intro s tm
    simp [log_telemetry, initState]

theorem atan2_zero_zero : atan2 0 0 = 0 := by
  simp [atan2]

theorem atan2_zero_of_nonneg {x : ℝ} (hx : 0 ≤ x) : atan2 0 x = 0 := by
  rcases hx.lt_or_eq with h | h
  · simp [atan2, if_pos h, Real.arctan_zero]
  · rw [← h]
    exact atan2_zero_zero

theorem radians_zero : radians 0 = 0 := by
  simp [radians]

theorem degrees_zero : degrees 0 = 0 := by
  simp [degrees]

theorem degrees_radians (d : ℝ) : degrees (radians d) = d := by
  unfold degrees radians
  field_simp

/-- C1 (amended): for every origin with latitude in [-90, 90],
relative_to_absolute(origin_lat, origin_lon, 0, 0) returns exactly the
origin — but not through a special case: the code computes through the
general formula, with atan2(0,0) = 0 supplying the bearing, asin(sin(lat))
giving back the latitude, and atan2(0, cos² lat) = 0 leaving the longitude
unchanged. Outside [-90, 90] the result differs from the origin, which shows
no zero-displacement special case exists. -/
theorem C1_zero_displacement_returns_origin (docking_lat docking_lon : ℝ)
    (h1 : -90 ≤ docking_lat) (h2 : docking_lat ≤ 90) :
    relative_to_absolute docking_lat docking_lon 0 0 = (docking_lat, docking_lon) := by
  have hb1 : -(Real.pi / 2) ≤ radians docking_lat := by
    unfold radians
    nlinarith [Real.pi_pos]
  have hb2 : radians docking_lat ≤ Real.pi / 2 := by
    unfold radians
    nlinarith [Real.pi_pos]
  have hsq : Real.sqrt ((0 : ℝ) ^ 2 + (0 : ℝ) ^ 2) = 0 := by norm_num
  have hnn : (0 : ℝ) ≤ 1 - Real.sin (radians docking_lat) * Real.sin (radians docking_lat) := by
    nlinarith [Real.neg_one_le_sin (radians docking_lat),
      Real.sin_le_one (radians docking_lat)]
  simp only [relative_to_absolute, hsq, atan2_zero_zero, degrees_zero, zero_div,
    lt_self_iff_false, if_false, radians_zero, Real.cos_zero, Real.sin_zero, mul_one,
    mul_zero, zero_mul, add_zero, zero_add]
  rw [Real.arcsin_sin hb1 hb2, atan2_zero_of_nonneg hnn, add_zero, degrees_radians,
    degrees_radians]

/-- C1 witness: the zero displacement at origin (45, 7) comes back exactly. -/
theorem C1_zero_displacement_returns_origin_witness :
    relative_to_absolute 45 7 0 0 = (45, 7) :=
  C1_zero_displacement_returns_origin 45 7 (by norm_num) (by norm_num)

/-- C1 counterexample: at origin latitude 100 the zero displacement comes
back as latitude 80 — the code computes asin(sin(100°)) = 80° through the
general formula instead of special-casing x = y = 0, so the claim fails both
in its "for every origin" universality and in its asserted special-case
mechanism (a special case returning the origin unchanged would yield 100). -/
theorem C1_counterexample :
    relative_to_absolute 100 0 0 0 = (80, 0) ∧
    relative_to_absolute 100 0 0 0 ≠ (100, 0) := by
  have hr : radians 100 = 5 * Real.pi / 9 := by
    unfold radians
    ring
  have hsin : Real.sin (5 * Real.pi / 9) = Real.sin (4 * Real.pi / 9) := by
    rw [show 5 * Real.pi / 9 = Real.pi - 4 * Real.pi / 9 by ring, Real.sin_pi_sub]
  have harc : Real.arcsin (Real.sin (4 * Real.pi / 9)) = 4 * Real.pi / 9 :=
    Real.arcsin_sin (by nlinarith [Real.pi_pos]) (by nlinarith [Real.pi_pos])
  have hdeg : degrees (4 * Real.pi / 9) = 80 := by
    unfold degrees
    field_simp
    ring
  have hnn : (0 : ℝ) ≤ 1 - Real.sin (4 * Real.pi / 9) * Real.sin (4 * Real.pi / 9) := by
    nlinarith [Real.neg_one_le_sin (4 * Real.pi / 9), Real.sin_le_one (4 * Real.pi / 9)]
  have hsq : Real.sqrt ((0 : ℝ) ^ 2 + (0 : ℝ) ^ 2) = 0 := by norm_num
  have hmain : relative_to_absolute 100 0 0 0 = (80, 0) := by
    simp only [relative_to_absolute, hsq, atan2_zero_zero, degrees_zero, zero_div,
      lt_self_iff_false, if_false, radians_zero, Real.cos_zero, Real.sin_zero, mul_one,
      mul_zero, zero_mul, add_zero, zero_add, hr, hsin]
    rw [harc, atan2_zero_of_nonneg hnn, hdeg, degrees_zero]
  refine ⟨hmain, ?_⟩
  rw [hmain]
  intro hcontra
  have : (80 : ℝ) = 100 := congrArg Prod.fst hcontra
  norm_num at this

end BlueyeDock
